import Mathlib

/-!
# Verification of the Samadhan rate-limited execution and priority-scoring core

Shallow embedding of `src/gemini_config.py`: the `PriorityScorer` class
(a pure scoring library over complaint records) and the `RateLimiter` class
(sliding-window admission control with exponential-backoff retry).

Modelling conventions:
* Python dictionary values are modelled by `PyVal` (string / int / float / None);
  a missing key is `Option.none` on the corresponding `Complaint` field.
* Python floats are modelled by `ℚ` (all arithmetic performed by the source on
  them — `*2`, `min`, doubling, `min(_, 60)` — is exact on the values involved).
* Instants (`datetime`) are modelled by `ℤ` seconds; `timedelta(minutes=1)` is
  `60`, `timedelta(hours=1)` is `3600`, `timedelta.days` is floor division
  (`Int.fdiv`) by `86400`, as in CPython.
* Code that can raise is embedded in `Except`; an uncaught Python exception is
  an `Except.error` value.
-/

namespace Samadhan

/-- A Python runtime value appearing in a complaint dictionary field. -/
inductive PyVal where
  | str (s : String)
  | int (n : Int)
  | float (q : ℚ)
  | pynone
deriving DecidableEq, Repr

/-- Python exception classes raised by the scoring code. -/
inductive PyErr where
  | attributeError
  | typeError
deriving DecidableEq, Repr

/-- A complaint record (`dict`): only the four fields read by
`PriorityScorer.score_complaint`.  `Option.none` models an absent key;
`some v` a present key with value `v` (possibly `PyVal.pynone`). -/
structure Complaint where
  priority : Option PyVal
  status : Option PyVal
  created_at : Option PyVal
  affected_people : Option PyVal
deriving DecidableEq, Repr

/-- Decidable equality for `Except` results (used to evaluate the embedding
on concrete inputs). -/
instance {e a : Type} [DecidableEq e] [DecidableEq a] : DecidableEq (Except e a)
  | .error x, .error y =>
    if h : x = y then .isTrue (by rw [h]) else .isFalse (by intro hc; cases hc; exact h rfl)
  | .error _, .ok _ => .isFalse (by intro hc; cases hc)
  | .ok _, .error _ => .isFalse (by intro hc; cases hc)
  | .ok x, .ok y =>
    if h : x = y then .isTrue (by rw [h]) else .isFalse (by intro hc; cases hc; exact h rfl)

/-- Python `str.lower()` restricted to ASCII, which is exact for every key of
the weight tables; on a non-string value attribute access raises
`AttributeError`. -/
def pyLower (v : PyVal) : Except PyErr String :=
  match v with
  | .str s => .ok (String.mk (s.data.map Char.toLower))
  | _ => .error .attributeError

/-- Python truthiness (`if affected_people ...`) for the values of `PyVal`. -/
def pyTruthy (v : PyVal) : Bool :=
  match v with
  | .str s => s ≠ ""
  | .int n => n ≠ 0
  | .float q => q ≠ 0
  | .pynone => false

/-- `PriorityScorer.PRIORITY_WEIGHTS` (dict of int weights). -/
def PRIORITY_WEIGHTS : List (String × Int) :=
  [("urgent", 100), ("high", 75), ("medium", 50), ("low", 25)]

/-- `PriorityScorer.STATUS_WEIGHTS` (dict of int weights). -/
def STATUS_WEIGHTS : List (String × Int) :=
  [("escalated", 50), ("open", 30), ("pending", 20), ("resolved", 0)]

/-- `PriorityScorer.AGE_MULTIPLIER`. -/
def AGE_MULTIPLIER : Int := 5

/-- `PriorityScorer.AGE_MAX`. -/
def AGE_MAX : Int := 50

/-- `PriorityScorer.POPULATION_MULTIPLIER`. -/
def POPULATION_MULTIPLIER : ℚ := 2

/-- `PriorityScorer.POPULATION_MAX`. -/
def POPULATION_MAX : ℚ := 40

/-! ## ISO-8601 timestamp parsing (`datetime.fromisoformat`)

The source calls `datetime.fromisoformat(created_at.replace('Z', '+00:00'))`.
We model `str.replace('Z', '+00:00')` exactly (character-by-character, the
needle being a single character), and `fromisoformat` on the ISO profile the
repository uses: `YYYY-MM-DD`, optionally followed by `THH:MM:SS`, optionally
followed by an offset `±HH:MM`.  The parsed value is the instant in seconds
(civil seconds for a naive timestamp, UTC seconds for an aware one); an
unparsable string yields `Option.none`, which the caller's `try/except` turns
into an age score of `0`. -/

/-- `s.replace('Z', '+00:00')` on the character list of `s`. -/
def replaceZ : List Char → List Char
  | [] => []
  | c :: t =>
    if c = 'Z' then '+' :: '0' :: '0' :: ':' :: '0' :: '0' :: replaceZ t
    else c :: replaceZ t

/-- Value of a decimal digit character, if it is one. -/
def digitVal (c : Char) : Option Int :=
  if c.isDigit then some ((c.toNat : Int) - 48) else Option.none

/-- Two-digit decimal field. -/
def field2 (a b : Char) : Option Int :=
  match digitVal a, digitVal b with
  | some x, some y => some (10 * x + y)
  | _, _ => Option.none

/-- Four-digit decimal field. -/
def field4 (a b c d : Char) : Option Int :=
  match digitVal a, digitVal b, digitVal c, digitVal d with
  | some x, some y, some z, some w => some (1000 * x + 100 * y + 10 * z + w)
  | _, _, _, _ => Option.none

/-- Gregorian leap year. -/
def isLeap (y : Int) : Bool := y % 4 = 0 ∧ (y % 100 ≠ 0 ∨ y % 400 = 0)

/-- Number of days in a month. -/
def daysInMonth (y m : Int) : Int :=
  if m = 2 then (if isLeap y then 29 else 28)
  else if m = 4 ∨ m = 6 ∨ m = 9 ∨ m = 11 then 30
  else 31

/-- Days since 1970-01-01 of a civil date (standard `days_from_civil`
algorithm, exact for all Gregorian dates). -/
def daysFromCivil (y m d : Int) : Int :=
  let y' := if m ≤ 2 then y - 1 else y
  let era := Int.fdiv y' 400
  let yoe := y' - era * 400
  let mp := Int.emod (m + 9) 12
  let doy := Int.fdiv (153 * mp + 2) 5 + d - 1
  let doe := yoe * 365 + Int.fdiv yoe 4 - Int.fdiv yoe 100 + doy
  era * 146097 + doe - 719468

/-- Validated date field: days since epoch, or `none` when out of range
(as `fromisoformat` raises `ValueError` there). -/
def dateField (y1 y2 y3 y4 m1 m2 d1 d2 : Char) : Option Int :=
  match field4 y1 y2 y3 y4, field2 m1 m2, field2 d1 d2 with
  | some y, some m, some d =>
    if 1 ≤ y ∧ 1 ≤ m ∧ m ≤ 12 ∧ 1 ≤ d ∧ d ≤ daysInMonth y m then
      some (daysFromCivil y m d)
    else Option.none
  | _, _, _ => Option.none

/-- Validated time-of-day field in seconds. -/
def timeField (h1 h2 n1 n2 s1 s2 : Char) : Option Int :=
  match field2 h1 h2, field2 n1 n2, field2 s1 s2 with
  | some h, some n, some s =>
    if h ≤ 23 ∧ n ≤ 59 ∧ s ≤ 59 then some (3600 * h + 60 * n + s)
    else Option.none
  | _, _, _ => Option.none

/-- Validated UTC-offset field in seconds (magnitude). -/
def offsetField (o1 o2 p1 p2 : Char) : Option Int :=
  match field2 o1 o2, field2 p1 p2 with
  | some o, some p =>
    if o ≤ 23 ∧ p ≤ 59 then some (3600 * o + 60 * p) else Option.none
  | _, _ => Option.none

/-- `datetime.fromisoformat` on the supported profile, over a character list
(after the `'Z'` replacement). -/
def parseIsoChars : List Char → Option Int
  | [y1, y2, y3, y4, '-', m1, m2, '-', d1, d2] =>
    (dateField y1 y2 y3 y4 m1 m2 d1 d2).map (· * 86400)
  | [y1, y2, y3, y4, '-', m1, m2, '-', d1, d2, 'T', h1, h2, ':', n1, n2, ':', s1, s2] =>
    match dateField y1 y2 y3 y4 m1 m2 d1 d2, timeField h1 h2 n1 n2 s1 s2 with
    | some days, some secs => some (days * 86400 + secs)
    | _, _ => Option.none
  | [y1, y2, y3, y4, '-', m1, m2, '-', d1, d2, 'T', h1, h2, ':', n1, n2, ':', s1, s2,
     sgn, o1, o2, ':', p1, p2] =>
    match dateField y1 y2 y3 y4 m1 m2 d1 d2, timeField h1 h2 n1 n2 s1 s2,
          offsetField o1 o2 p1 p2 with
    | some days, some secs, some off =>
      if sgn = '+' then some (days * 86400 + secs - off)
      else if sgn = '-' then some (days * 86400 + secs + off)
      else Option.none
    | _, _, _ => Option.none
  | _ => Option.none

/-- `datetime.fromisoformat(s.replace('Z', '+00:00'))`, as an instant in
seconds, or `none` when parsing raises. -/
def parseIso (s : String) : Option Int :=
  parseIsoChars (replaceZ s.data)

/-- The instant a complaint's `created_at` value denotes: parsing succeeds only
on a string (a non-string raises `AttributeError` inside the `try`, handled
like a parse failure). -/
def createdInstant (v : PyVal) : Option Int :=
  match v with
  | .str s => parseIso s
  | _ => Option.none

/-- `PriorityScorer.calculate_age_score`: whole elapsed days (`timedelta.days`
is floor division) times `AGE_MULTIPLIER`, capped at `AGE_MAX`; any exception
(bad format, non-string) is caught and yields `0`.  The value is a Python int
(the docstring's `float` annotation notwithstanding). -/
def calculate_age_score (now : Int) (v : PyVal) : Int :=
  match createdInstant v with
  | some t => min (Int.fdiv (now - t) 86400 * AGE_MULTIPLIER) AGE_MAX
  | Option.none => 0

/-- `PriorityScorer.calculate_population_score`:
`if affected_people and affected_people > 0: return min(affected_people * 2, 40)`.
Truthiness is evaluated first; the comparison `> 0` then raises `TypeError`
for a (truthy) non-numeric value. -/
def calculate_population_score (v : PyVal) : Except PyErr ℚ :=
  if pyTruthy v then
    match v with
    | .int n =>
      if 0 < n then .ok (min ((n : ℚ) * POPULATION_MULTIPLIER) POPULATION_MAX)
      else .ok 0
    | .float q =>
      if 0 < q then .ok (min (q * POPULATION_MULTIPLIER) POPULATION_MAX)
      else .ok 0
    | _ => .error .typeError
  else .ok 0

/-- The `priority_breakdown` record added by `score_complaint`. -/
structure Breakdown where
  priority_level : Int
  status : Int
  age : Int
  population_impact : ℚ
  total : ℚ
deriving DecidableEq, Repr

/-- The enriched dictionary returned by `score_complaint`: all original fields
(`base`) plus `priority_score` and `priority_breakdown`. -/
structure Scored where
  base : Complaint
  priority_score : ℚ
  priority_breakdown : Breakdown
deriving DecidableEq, Repr

/-- `PriorityScorer.score_complaint`.  Evaluation order follows the source:
priority weight (`.get('priority', 'low').lower()`, may raise
`AttributeError`), status weight (likewise), age score (never raises),
population score (may raise `TypeError`). -/
def score_complaint (now : Int) (c : Complaint) : Except PyErr Scored :=
  match pyLower (c.priority.getD (PyVal.str "low")) with
  | .error e => .error e
  | .ok pk =>
    match pyLower (c.status.getD (PyVal.str "pending")) with
    | .error e => .error e
    | .ok sk =>
      let priority_weight := ((PRIORITY_WEIGHTS.lookup pk).getD 0)
      let status_weight := ((STATUS_WEIGHTS.lookup sk).getD 0)
      let age_score := calculate_age_score now (c.created_at.getD (PyVal.str ""))
      match calculate_population_score (c.affected_people.getD (PyVal.int 0)) with
      | .error e => .error e
      | .ok population_score =>
        let total : ℚ :=
          (priority_weight : ℚ) + (status_weight : ℚ) + (age_score : ℚ) + population_score
        .ok { base := c
              priority_score := total
              priority_breakdown :=
                { priority_level := priority_weight
                  status := status_weight
                  age := age_score
                  population_impact := population_score
                  total := total } }

/-- The list comprehension `[score_complaint(c) for c in complaints]`:
the first exception propagates. -/
def mapScore (now : Int) : List Complaint → Except PyErr (List Scored)
  | [] => .ok []
  | c :: cs =>
    match score_complaint now c with
    | .error e => .error e
    | .ok s =>
      match mapScore now cs with
      | .error e => .error e
      | .ok ss => .ok (s :: ss)

/-- The comparison used by `sorted(scored, key=lambda x: x.get('priority_score', 0),
reverse=True)`: Python's sort is stable, and `reverse=True` reverses the
comparison, not the order of ties, so it is a stable sort with `a` before `b`
when `b.priority_score ≤ a.priority_score`.  Every scored dict has the
`priority_score` key, so the `get` default is never taken. -/
def scoreLE (a b : Scored) : Bool := decide (b.priority_score ≤ a.priority_score)

/-- `PriorityScorer.score_and_sort_complaints`. -/
def score_and_sort_complaints (now : Int) (cs : List Complaint) :
    Except PyErr (List Scored) :=
  match mapScore now cs with
  | .error e => .error e
  | .ok scored => .ok (scored.mergeSort scoreLE)

/-- `PriorityScorer.get_priority_category`. -/
def get_priority_category (score : ℚ) : String :=
  if 200 ≤ score then "CRITICAL"
  else if 150 ≤ score then "HIGH"
  else if 100 ≤ score then "MEDIUM"
  else if 50 ≤ score then "LOW"
  else "MINIMAL"

/-! ## RateLimiter

State and configuration of `RateLimiter` in one structure, as in the source
object.  Timestamps are `ℤ` seconds; the two deques are chronological lists.
The lock (`self.lock`) is made explicit in the event trace of
`wait_if_needed` below. -/

/-- A `RateLimiter` instance: configuration fields and the two request
windows. -/
structure RateLimiter where
  requests_per_minute : Int
  requests_per_hour : Int
  max_retries : Int
  initial_retry_delay : ℚ
  minute_requests : List Int
  hour_requests : List Int
deriving DecidableEq, Repr

/-- `RateLimiter.__init__`: stores the four parameters and starts with both
windows empty.  The source performs no validation of any kind: there is no
error path, so the result type is `RateLimiter`, not an `Except`. -/
def RateLimiter.init (requests_per_minute : Int := 30) (requests_per_hour : Int := 1500)
    (max_retries : Int := 5) (initial_retry_delay : ℚ := 1) : RateLimiter :=
  { requests_per_minute := requests_per_minute
    requests_per_hour := requests_per_hour
    max_retries := max_retries
    initial_retry_delay := initial_retry_delay
    minute_requests := []
    hour_requests := [] }

/-- `RateLimiter._clean_old_requests(now)`: pop from the front while the head
is strictly older than the window span (`deque[0] < now - span`). -/
def cleanOld (now : Int) (rl : RateLimiter) : RateLimiter :=
  { rl with
    minute_requests := rl.minute_requests.dropWhile (fun t => t < now - 60)
    hour_requests := rl.hour_requests.dropWhile (fun t => t < now - 3600) }

/-- Capacity test of `_can_make_request` after cleaning: both windows strictly
below their limits. -/
def hasCapacity (rl : RateLimiter) : Bool :=
  decide ((rl.minute_requests.length : Int) < rl.requests_per_minute) &&
  decide ((rl.hour_requests.length : Int) < rl.requests_per_hour)

/-- `RateLimiter._get_wait_time()` on an already-cleaned state: time until the
oldest minute-window entry expires, in whole seconds here (`0` when the minute
window is empty), clamped at `0`. -/
def getWaitTime (now : Int) (rl : RateLimiter) : Int :=
  match rl.minute_requests with
  | [] => 0
  | t :: _ => max 0 (t + 60 - now)

/-- Observable actions of one `wait_if_needed()` call; the lock is explicit.
`sleep` carries the slept duration in seconds (`wait_time + 0.1` buffer, or
the `0.1` poll). -/
inductive RLEvent where
  | acquire
  | sleep (d : ℚ)
  | record (t : Int)
  | release
deriving DecidableEq, Repr

/-- The `while not self._can_make_request():` loop of `wait_if_needed`, run
entirely under `self.lock`.  `times` supplies the value of `datetime.now()`
for each loop iteration (one clock value per iteration; the in-iteration
`now()` calls of `_can_make_request`, `_get_wait_time` and the post-sleep
clean are microseconds apart and modelled by that iteration's value).
Returns `none` when the supplied clock values do not suffice for the loop to
exit (the source loop can spin forever, e.g. with a zero limit). -/
def waitLoop (rl : RateLimiter) : List Int → Option (List RLEvent × RateLimiter)
  | [] => Option.none
  | t :: ts =>
    let rl₁ := cleanOld t rl
    if hasCapacity rl₁ then some ([], rl₁)
    else
      let w := getWaitTime t rl₁
      let ev := if 0 < w then RLEvent.sleep ((w : ℚ) + 1/10) else RLEvent.sleep (1/10)
      let rl₂ := if 0 < w then cleanOld t rl₁ else rl₁
      match waitLoop rl₂ ts with
      | some (evs, rl') => some (ev :: evs, rl')
      | Option.none => Option.none

/-- `RateLimiter.wait_if_needed()`: acquire the lock, loop until capacity,
record the current instant (`tRec`, the final `datetime.now()`) in **both**
windows, release the lock.  In the source the `time.sleep` calls happen
*inside* the `with self.lock:` block; the trace reflects that. -/
def wait_if_needed (rl : RateLimiter) (times : List Int) (tRec : Int) :
    Option (List RLEvent × RateLimiter) :=
  match waitLoop rl times with
  | Option.none => Option.none
  | some (evs, rl') =>
    some (RLEvent.acquire :: evs ++ [RLEvent.record tRec, RLEvent.release],
          { rl' with
            minute_requests := rl'.minute_requests ++ [tRec]
            hour_requests := rl'.hour_requests ++ [tRec] })

/-- Whether the trace performs a `sleep` while the (single) lock is held. -/
def sleepsWhileLocked : List RLEvent → Bool → Bool
  | [], _ => false
  | RLEvent.acquire :: r, _ => sleepsWhileLocked r true
  | RLEvent.release :: r, _ => sleepsWhileLocked r false
  | RLEvent.sleep _ :: r, held => held || sleepsWhileLocked r held
  | RLEvent.record _ :: r, held => sleepsWhileLocked r held

/-! ## execute_with_retry

The retry loop `for attempt in range(max_retries + 1)` of
`RateLimiter.execute_with_retry`.  The wrapped operation is modelled as a
function from the attempt number to a result (`Except String α`, the error
being `str(e)`); the admission gate `wait_if_needed` called before each
attempt does not influence the retry accounting and is verified separately. -/

/-- Python `needle in haystack` on character lists. -/
def containsSub (needle : List Char) : List Char → Bool
  | [] => needle.isEmpty
  | c :: t => needle.isPrefixOf (c :: t) || containsSub needle t

/-- The rate-limit classification:
`"429" in error_msg or "rate limit" in error_msg.lower()`. -/
def isRateLimit (msg : String) : Bool :=
  containsSub "429".data msg.data ||
  containsSub "rate limit".data (msg.data.map Char.toLower)

/-- Outcome of `execute_with_retry`: the returned value or propagated
exception, the number of attempts made (calls of the wrapped operation), and
the backoff delays slept (each `time.sleep(retry_delay)` before a retry). -/
structure RetryOutcome (α : Type) where
  result : Except String α
  attempts : Nat
  sleeps : List ℚ
deriving Repr

/-- One pass of the retry loop: `retriesLeft = max_retries - attempt` many
retries remain.  On a rate-limit-classified error with a retry available the
loop sleeps `delay` and continues with `min(delay * 2, 60)`; otherwise the
error is re-raised. -/
def retryGo (op : Nat → Except String α) (attempt : Nat) (delay : ℚ) :
    Nat → RetryOutcome α
  | 0 =>
    match op attempt with
    | .ok v => ⟨.ok v, 1, []⟩
    | .error e => ⟨.error e, 1, []⟩
  | retriesLeft + 1 =>
    match op attempt with
    | .ok v => ⟨.ok v, 1, []⟩
    | .error e =>
      if isRateLimit e then
        let rest := retryGo op (attempt + 1) (min (delay * 2) 60) retriesLeft
        ⟨rest.result, rest.attempts + 1, delay :: rest.sleeps⟩
      else ⟨.error e, 1, []⟩

/-- `RateLimiter.execute_with_retry(func)` with `max_retries` and
`initial_retry_delay`. -/
def execute_with_retry (max_retries : Nat) (initial_retry_delay : ℚ)
    (op : Nat → Except String α) : RetryOutcome α :=
  retryGo op 0 initial_retry_delay max_retries

end Samadhan


/-! # Helper lemmas -/

namespace Samadhan

theorem priority_weight_bounds (k : String) :
    0 ≤ (PRIORITY_WEIGHTS.lookup k).getD 0 ∧ (PRIORITY_WEIGHTS.lookup k).getD 0 ≤ 100 := by
  simp only [PRIORITY_WEIGHTS, List.lookup]
  repeat' split
  all_goals simp

theorem status_weight_bounds (k : String) :
    0 ≤ (STATUS_WEIGHTS.lookup k).getD 0 ∧ (STATUS_WEIGHTS.lookup k).getD 0 ≤ 50 := by
  simp only [STATUS_WEIGHTS, List.lookup]
  repeat' split
  all_goals simp

theorem calculate_age_score_le (now : Int) (v : PyVal) :
    calculate_age_score now v ≤ AGE_MAX := by
  unfold calculate_age_score
  split
  · exact min_le_right _ _
  · simp [AGE_MAX]

theorem calculate_age_score_nonneg (now : Int) (v : PyVal)
    (h : ∀ t : Int, createdInstant v = some t → t ≤ now) :
    0 ≤ calculate_age_score now v := by
  unfold calculate_age_score
  split
  next t heq =>
    refine le_min (mul_nonneg ?_ (by norm_num [AGE_MULTIPLIER])) (by norm_num [AGE_MAX])
    exact Int.fdiv_nonneg (by have := h t heq; omega) (by norm_num)
  next => exact le_refl 0

theorem pop_score_int_pos (n : Int) (hn : 0 < n) :
    calculate_population_score (.int n) = .ok (min ((n : ℚ) * 2) 40) := by
  have hne : n ≠ 0 := by omega
  simp [calculate_population_score, pyTruthy, POPULATION_MULTIPLIER, POPULATION_MAX, hne, hn]

theorem pop_score_int_nonpos (n : Int) (hn : n ≤ 0) :
    calculate_population_score (.int n) = .ok 0 := by
  rcases eq_or_lt_of_le hn with h | h
  · simp [calculate_population_score, pyTruthy, h]
  · have hne : n ≠ 0 := by omega
    have hnp : ¬ (0 < n) := by omega
    simp [calculate_population_score, pyTruthy, hne, hnp]

theorem pop_score_float_pos (q : ℚ) (hq : 0 < q) :
    calculate_population_score (.float q) = .ok (min (q * 2) 40) := by
  have hne : q ≠ 0 := ne_of_gt hq
  simp [calculate_population_score, pyTruthy, POPULATION_MULTIPLIER, POPULATION_MAX, hne, hq]

theorem pop_score_float_nonpos (q : ℚ) (hq : q ≤ 0) :
    calculate_population_score (.float q) = .ok 0 := by
  rcases eq_or_lt_of_le hq with h | h
  · simp [calculate_population_score, pyTruthy, h]
  · have hne : q ≠ 0 := ne_of_lt h
    have hnp : ¬ (0 < q) := by linarith
    simp [calculate_population_score, pyTruthy, hne, hnp]

theorem pop_score_pynone : calculate_population_score .pynone = .ok 0 := by
  simp [calculate_population_score, pyTruthy]

theorem pop_score_str (s : String) (hs : s ≠ "") :
    calculate_population_score (.str s) = .error .typeError := by
  simp [calculate_population_score, pyTruthy, hs]

theorem calculate_population_score_bounds (v : PyVal) (q : ℚ)
    (h : calculate_population_score v = .ok q) : 0 ≤ q ∧ q ≤ 40 := by
  cases v with
  | str s =>
    by_cases hs : s = ""
    · subst hs
      simp [calculate_population_score, pyTruthy] at h
      simp [← h]
    · rw [pop_score_str s hs] at h
      exact absurd h (by simp)
  | int n =>
    by_cases hn : 0 < n
    · rw [pop_score_int_pos n hn] at h
      cases h
      have h0 : (0:ℚ) ≤ (n : ℚ) := by exact_mod_cast hn.le
      exact ⟨le_min (by nlinarith) (by norm_num), min_le_right _ _⟩
    · rw [pop_score_int_nonpos n (by omega)] at h
      cases h
      norm_num
  | float q' =>
    by_cases hq : 0 < q'
    · rw [pop_score_float_pos q' hq] at h
      cases h
      exact ⟨le_min (by nlinarith) (by norm_num), min_le_right _ _⟩
    · rw [pop_score_float_nonpos q' (by linarith)] at h
      cases h
      norm_num
  | pynone =>
    rw [pop_score_pynone] at h
    cases h
    norm_num

/-- Evaluation lemma: `score_complaint` when none of the three fallible steps
raises. -/
theorem score_complaint_eq (now : Int) (c : Complaint) (ps ss : String) (q : ℚ)
    (h1 : pyLower (c.priority.getD (PyVal.str "low")) = .ok ps)
    (h2 : pyLower (c.status.getD (PyVal.str "pending")) = .ok ss)
    (h3 : calculate_population_score (c.affected_people.getD (PyVal.int 0)) = .ok q) :
    score_complaint now c =
      .ok { base := c
            priority_score := (((PRIORITY_WEIGHTS.lookup ps).getD 0 : Int) : ℚ) +
              (((STATUS_WEIGHTS.lookup ss).getD 0 : Int) : ℚ) +
              ((calculate_age_score now (c.created_at.getD (PyVal.str "")) : Int) : ℚ) + q
            priority_breakdown :=
              { priority_level := (PRIORITY_WEIGHTS.lookup ps).getD 0
                status := (STATUS_WEIGHTS.lookup ss).getD 0
                age := calculate_age_score now (c.created_at.getD (PyVal.str ""))
                population_impact := q
                total := (((PRIORITY_WEIGHTS.lookup ps).getD 0 : Int) : ℚ) +
                  (((STATUS_WEIGHTS.lookup ss).getD 0 : Int) : ℚ) +
                  ((calculate_age_score now (c.created_at.getD (PyVal.str "")) : Int) : ℚ) + q } } := by
  unfold score_complaint
  rw [h1, h2, h3]

/-- Inversion lemma: the shape of any successful `score_complaint` result. -/
theorem score_complaint_ok_inv (now : Int) (c : Complaint) (r : Scored)
    (h : score_complaint now c = .ok r) :
    ∃ ps ss q,
      pyLower (c.priority.getD (PyVal.str "low")) = .ok ps ∧
      pyLower (c.status.getD (PyVal.str "pending")) = .ok ss ∧
      calculate_population_score (c.affected_people.getD (PyVal.int 0)) = .ok q ∧
      r = { base := c
            priority_score := (((PRIORITY_WEIGHTS.lookup ps).getD 0 : Int) : ℚ) +
              (((STATUS_WEIGHTS.lookup ss).getD 0 : Int) : ℚ) +
              ((calculate_age_score now (c.created_at.getD (PyVal.str "")) : Int) : ℚ) + q
            priority_breakdown :=
              { priority_level := (PRIORITY_WEIGHTS.lookup ps).getD 0
                status := (STATUS_WEIGHTS.lookup ss).getD 0
                age := calculate_age_score now (c.created_at.getD (PyVal.str ""))
                population_impact := q
                total := (((PRIORITY_WEIGHTS.lookup ps).getD 0 : Int) : ℚ) +
                  (((STATUS_WEIGHTS.lookup ss).getD 0 : Int) : ℚ) +
                  ((calculate_age_score now (c.created_at.getD (PyVal.str "")) : Int) : ℚ) + q } } := by
  unfold score_complaint at h
  split at h
  · exact absurd h (by simp)
  next ps h1 =>
    split at h
    · exact absurd h (by simp)
    next ss h2 =>
      split at h
      · exact absurd h (by simp)
      next q h3 =>
        refine ⟨ps, ss, q, h1, h2, h3, ?_⟩
        cases h
        rfl

/-! # Claim C1 -/

/-- C1 (corrected). For every complaint that `score_complaint` scores without
raising, the `priority_score` equals the sum of the four component sub-scores
(and equals the breakdown's `total`), is at most `240`, and — **provided the
parsed creation instant does not lie in the future of `now`** — is at least
`0`.  The unrestricted claim `priorityScore ∈ [0, 240]` is false: a future
creation timestamp makes `timedelta.days` negative, so the age sub-score and
then the total can drop below `0` (see the counterexample).  The result is a
pure function of the complaint and the current instant `now`. -/
theorem score_complaint_sum_and_bounds (now : Int) (c : Complaint) (r : Scored)
    (h : score_complaint now c = .ok r) :
    r.priority_score = (r.priority_breakdown.priority_level : ℚ) +
      (r.priority_breakdown.status : ℚ) + (r.priority_breakdown.age : ℚ) +
      r.priority_breakdown.population_impact ∧
    r.priority_score = r.priority_breakdown.total ∧
    r.priority_score ≤ 240 ∧
    ((∀ t : Int, createdInstant (c.created_at.getD (PyVal.str "")) = some t → t ≤ now) →
      0 ≤ r.priority_score) := by
  obtain ⟨ps, ss, q, -, -, hq, hr⟩ := score_complaint_ok_inv now c r h
  subst hr
  have hpw := priority_weight_bounds ps
  have hsw := status_weight_bounds ss
  have hage := calculate_age_score_le now (c.created_at.getD (PyVal.str ""))
  have hpop := calculate_population_score_bounds _ q hq
  refine ⟨rfl, rfl, ?_, ?_⟩
  · have h1 : ((PRIORITY_WEIGHTS.lookup ps).getD 0 : ℚ) ≤ 100 := by exact_mod_cast hpw.2
    have h2 : ((STATUS_WEIGHTS.lookup ss).getD 0 : ℚ) ≤ 50 := by exact_mod_cast hsw.2
    have h3 : ((calculate_age_score now (c.created_at.getD (PyVal.str "")) : Int) : ℚ) ≤ 50 := by
      have := hage
      rw [AGE_MAX] at this
      exact_mod_cast this
    have h4 : q ≤ 40 := hpop.2
    simp only [Scored.priority_score]
    linarith
  · intro hfut
    have hagenn := calculate_age_score_nonneg now (c.created_at.getD (PyVal.str "")) hfut
    have h1 : (0:ℚ) ≤ ((PRIORITY_WEIGHTS.lookup ps).getD 0 : ℚ) := by exact_mod_cast hpw.1
    have h2 : (0:ℚ) ≤ ((STATUS_WEIGHTS.lookup ss).getD 0 : ℚ) := by exact_mod_cast hsw.1
    have h3 : (0:ℚ) ≤ ((calculate_age_score now (c.created_at.getD (PyVal.str "")) : Int) : ℚ) := by
      exact_mod_cast hagenn
    have h4 : (0:ℚ) ≤ q := hpop.1
    simp only [Scored.priority_score]
    linarith

/-- C1 witness: a fully scored well-formed complaint (`now` is
2026-01-02T10:00:00Z; created one day earlier), with the hypotheses discharged
concretely. -/
theorem score_complaint_sum_and_bounds_witness :
    score_complaint 1767348000
        ⟨some (.str "urgent"), some (.str "escalated"),
         some (.str "2026-01-01T10:00:00Z"), some (.int 500)⟩ =
      .ok ⟨⟨some (.str "urgent"), some (.str "escalated"),
            some (.str "2026-01-01T10:00:00Z"), some (.int 500)⟩,
           195, ⟨100, 50, 5, 40, 195⟩⟩ ∧
    (195 : ℚ) ≤ 240 ∧ (0:ℚ) ≤ (195:ℚ) := by
  have hpop : calculate_population_score
      ((⟨some (.str "urgent"), some (.str "escalated"),
        some (.str "2026-01-01T10:00:00Z"), some (.int 500)⟩ : Complaint).affected_people.getD
        (PyVal.int 0)) = .ok 40 := by
    show calculate_population_score (PyVal.int 500) = .ok 40
    rw [pop_score_int_pos 500 (by norm_num)]
    norm_num
  have hc : score_complaint 1767348000
      ⟨some (.str "urgent"), some (.str "escalated"),
       some (.str "2026-01-01T10:00:00Z"), some (.int 500)⟩ =
      .ok ⟨⟨some (.str "urgent"), some (.str "escalated"),
            some (.str "2026-01-01T10:00:00Z"), some (.int 500)⟩,
           195, ⟨100, 50, 5, 40, 195⟩⟩ := by
    rw [score_complaint_eq 1767348000 _ "urgent" "escalated" 40 (by decide) (by decide) hpop]
    have hage : calculate_age_score 1767348000
        ((⟨some (.str "urgent"), some (.str "escalated"),
          some (.str "2026-01-01T10:00:00Z"), some (.int 500)⟩ : Complaint).created_at.getD
          (PyVal.str "")) = 5 := by decide
    have hpw : (PRIORITY_WEIGHTS.lookup "urgent").getD 0 = 100 := by decide
    have hsw : (STATUS_WEIGHTS.lookup "escalated").getD 0 = 50 := by decide
    rw [hage, hpw, hsw]
    norm_num [Scored.mk.injEq, Breakdown.mk.injEq]
  have hfut : ∀ t : Int, createdInstant
      ((⟨some (.str "urgent"), some (.str "escalated"),
        some (.str "2026-01-01T10:00:00Z"), some (.int 500)⟩ : Complaint).created_at.getD
        (PyVal.str "")) = some t → t ≤ 1767348000 := by
    intro t ht
    have he : createdInstant
        ((⟨some (.str "urgent"), some (.str "escalated"),
          some (.str "2026-01-01T10:00:00Z"), some (.int 500)⟩ : Complaint).created_at.getD
          (PyVal.str "")) = some (1767261600 : Int) := by decide
    rw [he] at ht
    injection ht with h
    omega
  have hb := score_complaint_sum_and_bounds 1767348000 _ _ hc
  exact ⟨hc, hb.2.2.1, hb.2.2.2 hfut⟩

/-- C1 counterexample: a well-formed complaint (priority `low`, status
`resolved`, population `0`) whose creation timestamp lies six days in the
future of `now` scores `25 + 0 + (-30) + 0 = -5 ∉ [0, 240]`. -/
theorem score_complaint_future_negative :
    score_complaint 1767348000
        ⟨some (.str "low"), some (.str "resolved"),
         some (.str "2026-01-08T10:00:00Z"), some (.int 0)⟩ =
      .ok ⟨⟨some (.str "low"), some (.str "resolved"),
            some (.str "2026-01-08T10:00:00Z"), some (.int 0)⟩,
           -5, ⟨25, 0, -30, 0, -5⟩⟩ ∧
    ((-5 : ℚ) < 0) := by
  refine ⟨?_, by norm_num⟩
  have hpop : calculate_population_score
      ((⟨some (.str "low"), some (.str "resolved"),
        some (.str "2026-01-08T10:00:00Z"), some (.int 0)⟩ : Complaint).affected_people.getD
        (PyVal.int 0)) = .ok 0 := pop_score_int_nonpos 0 le_rfl
  rw [score_complaint_eq 1767348000 _ "low" "resolved" 0 (by decide) (by decide) hpop]
  have hage : calculate_age_score 1767348000
      ((⟨some (.str "low"), some (.str "resolved"),
        some (.str "2026-01-08T10:00:00Z"), some (.int 0)⟩ : Complaint).created_at.getD
        (PyVal.str "")) = -30 := by decide
  have hpw : (PRIORITY_WEIGHTS.lookup "low").getD 0 = 25 := by decide
  have hsw : (STATUS_WEIGHTS.lookup "resolved").getD 0 = 0 := by decide
  rw [hage, hpw, hsw]
  norm_num [Scored.mk.injEq, Breakdown.mk.injEq]

/-! # Claim C2 -/

theorem calculate_age_score_none (now : Int) (v : PyVal)
    (h : createdInstant v = Option.none) : calculate_age_score now v = 0 := by
  simp [calculate_age_score, h]

/-- C2 (corrected).  Graceful degradation holds exactly for the field shapes
the code tolerates: a missing priority/status, or a *string* priority/status
(recognized or not), a missing or arbitrary `created_at`, and a missing,
`None`, or numeric `affected_people`.  Under those hypotheses `score_complaint`
never raises, and each malformed field degrades to its documented default:
missing priority scores as `'low'` (25), an unrecognized priority string
scores 0, missing status scores as `'pending'` (20), an unrecognized status
string scores 0, an unparsable or missing timestamp gives age 0, and a
missing, `None`, or non-positive count gives population 0.  (A *non-string*
priority or status, or a truthy non-numeric count, makes the code raise, and a
positive fractional count scores `count×2`, not 0 — see the counterexample.) -/
theorem score_complaint_graceful (now : Int) (c : Complaint)
    (hp : c.priority = Option.none ∨ ∃ s, c.priority = some (.str s))
    (hs : c.status = Option.none ∨ ∃ s, c.status = some (.str s))
    (ha : c.affected_people = Option.none ∨ c.affected_people = some .pynone ∨
          (∃ n, c.affected_people = some (.int n)) ∨
          (∃ q, c.affected_people = some (.float q))) :
    ∃ r, score_complaint now c = .ok r ∧
      (c.priority = Option.none → r.priority_breakdown.priority_level = 25) ∧
      (∀ s, c.priority = some (.str s) →
        PRIORITY_WEIGHTS.lookup (String.mk (s.data.map Char.toLower)) = Option.none →
        r.priority_breakdown.priority_level = 0) ∧
      (c.status = Option.none → r.priority_breakdown.status = 20) ∧
      (∀ s, c.status = some (.str s) →
        STATUS_WEIGHTS.lookup (String.mk (s.data.map Char.toLower)) = Option.none →
        r.priority_breakdown.status = 0) ∧
      (createdInstant (c.created_at.getD (PyVal.str "")) = Option.none →
        r.priority_breakdown.age = 0) ∧
      ((c.affected_people = Option.none ∨ c.affected_people = some .pynone ∨
        (∃ n, n ≤ 0 ∧ c.affected_people = some (.int n)) ∨
        (∃ q, q ≤ 0 ∧ c.affected_people = some (.float q))) →
        r.priority_breakdown.population_impact = 0) := by
  obtain ⟨ps, h1, hpnone, hpsome⟩ :
      ∃ ps, pyLower (c.priority.getD (PyVal.str "low")) = .ok ps ∧
        (c.priority = Option.none → ps = "low") ∧
        (∀ s, c.priority = some (.str s) → ps = String.mk (s.data.map Char.toLower)) := by
    rcases hp with hp | ⟨s, hp⟩
    · refine ⟨"low", ?_, fun _ => rfl, fun s hsome => ?_⟩
      · rw [hp]; decide
      · rw [hp] at hsome; cases hsome
    · refine ⟨String.mk (s.data.map Char.toLower), ?_, fun hnone => ?_, fun s' hsome => ?_⟩
      · rw [hp]; rfl
      · rw [hp] at hnone; cases hnone
      · rw [hp] at hsome
        injection hsome with h
        injection h with h
        rw [h]
  obtain ⟨ss, h2, hsnone, hssome⟩ :
      ∃ ss, pyLower (c.status.getD (PyVal.str "pending")) = .ok ss ∧
        (c.status = Option.none → ss = "pending") ∧
        (∀ s, c.status = some (.str s) → ss = String.mk (s.data.map Char.toLower)) := by
    rcases hs with hs | ⟨s, hs⟩
    · refine ⟨"pending", ?_, fun _ => rfl, fun s hsome => ?_⟩
      · rw [hs]; decide
      · rw [hs] at hsome; cases hsome
    · refine ⟨String.mk (s.data.map Char.toLower), ?_, fun hnone => ?_, fun s' hsome => ?_⟩
      · rw [hs]; rfl
      · rw [hs] at hnone; cases hnone
      · rw [hs] at hsome
        injection hsome with h
        injection h with h
        rw [h]
  obtain ⟨q0, h3, hq0⟩ :
      ∃ q0, calculate_population_score (c.affected_people.getD (PyVal.int 0)) = .ok q0 ∧
        ((c.affected_people = Option.none ∨ c.affected_people = some .pynone ∨
          (∃ n, n ≤ 0 ∧ c.affected_people = some (.int n)) ∨
          (∃ q, q ≤ 0 ∧ c.affected_people = some (.float q))) → q0 = 0) := by
    rcases ha with ha | ha | ⟨n, ha⟩ | ⟨q, ha⟩
    · refine ⟨0, ?_, fun _ => rfl⟩
      rw [ha]
      exact pop_score_int_nonpos 0 le_rfl
    · refine ⟨0, ?_, fun _ => rfl⟩
      rw [ha]
      exact pop_score_pynone
    · rcases le_or_lt n 0 with hn | hn
      · refine ⟨0, ?_, fun _ => rfl⟩
        rw [ha]
        exact pop_score_int_nonpos n hn
      · refine ⟨min ((n : ℚ) * 2) 40, ?_, fun hz => ?_⟩
        · rw [ha]
          exact pop_score_int_pos n hn
        · exfalso
          rcases hz with hz | hz | ⟨n', hn', hz⟩ | ⟨q', _, hz⟩ <;> rw [ha] at hz
          · cases hz
          · injection hz with h; cases h
          · injection hz with h; injection h with h; omega
          · injection hz with h; cases h
    · rcases le_or_lt q 0 with hq | hq
      · refine ⟨0, ?_, fun _ => rfl⟩
        rw [ha]
        exact pop_score_float_nonpos q hq
      · refine ⟨min (q * 2) 40, ?_, fun hz => ?_⟩
        · rw [ha]
          exact pop_score_float_pos q hq
        · exfalso
          rcases hz with hz | hz | ⟨n', _, hz⟩ | ⟨q', hq', hz⟩ <;> rw [ha] at hz
          · cases hz
          · injection hz with h; cases h
          · injection hz with h; cases h
          · injection hz with h; injection h with h; subst h; linarith
  refine ⟨_, score_complaint_eq now c ps ss q0 h1 h2 h3, ?_, ?_, ?_, ?_, ?_, ?_⟩
  · intro hnone
    have := hpnone hnone
    subst this
    show (PRIORITY_WEIGHTS.lookup "low").getD 0 = 25
    decide
  · intro s hsome hlk
    have := hpsome s hsome
    subst this
    show (PRIORITY_WEIGHTS.lookup (String.mk (s.data.map Char.toLower))).getD 0 = 0
    rw [hlk]
    rfl
  · intro hnone
    have := hsnone hnone
    subst this
    show (STATUS_WEIGHTS.lookup "pending").getD 0 = 20
    decide
  · intro s hsome hlk
    have := hssome s hsome
    subst this
    show (STATUS_WEIGHTS.lookup (String.mk (s.data.map Char.toLower))).getD 0 = 0
    rw [hlk]
    rfl
  · intro hnone
    exact calculate_age_score_none now _ hnone
  · exact hq0

/-- C2 witness: priority absent (defaults to `'low'` = 25), unrecognized
status string (0), unparsable timestamp (age 0), negative count
(population 0); `score_complaint` succeeds. -/
theorem score_complaint_graceful_witness :
    ∃ r, score_complaint 0
        ⟨Option.none, some (.str "weird"), some (.str "not-a-date"), some (.int (-3))⟩ =
        .ok r ∧
      r.priority_breakdown.priority_level = 25 ∧
      r.priority_breakdown.status = 0 ∧
      r.priority_breakdown.age = 0 ∧
      r.priority_breakdown.population_impact = 0 := by
  obtain ⟨r, hr, c1, c2, c3, c4, c5, c6⟩ := score_complaint_graceful 0
    ⟨Option.none, some (.str "weird"), some (.str "not-a-date"), some (.int (-3))⟩
    (Or.inl rfl) (Or.inr ⟨"weird", rfl⟩) (Or.inr (Or.inr (Or.inl ⟨-3, rfl⟩)))
  exact ⟨r, hr, c1 rfl, c4 "weird" rfl (by decide), c5 (by decide),
    c6 (Or.inr (Or.inr (Or.inl ⟨-3, by norm_num⟩)))⟩

/-- C2 counterexample: the claim's "never raises" fails for a non-string
priority (`AttributeError` from `.lower()`) and for a truthy non-numeric
count (`TypeError` from `> 0`); and a positive non-integer count scores
`count × 2`, not the claimed 0. -/
theorem score_complaint_raises :
    score_complaint 0 ⟨some (.int 5), some (.str "open"), Option.none, Option.none⟩ =
      .error .attributeError ∧
    score_complaint 0 ⟨some (.str "low"), some (.str "open"), Option.none, some (.str "ten")⟩ =
      .error .typeError ∧
    calculate_population_score (.float (5/2)) = .ok 5 ∧ ¬ ((5:ℚ) = 0) := by
  refine ⟨by decide, by decide, ?_, by norm_num⟩
  rw [pop_score_float_pos (5/2) (by norm_num)]
  norm_num

/-! # Claim C3 -/

/-- C3 (corrected).  `RateLimiter.__init__` performs **no validation at all**:
for every choice of parameters — zero, negative, or otherwise — construction
succeeds, stores the four parameters verbatim, and starts with both windows
empty.  There is no configuration-error path in the constructor. -/
theorem init_accepts_all_parameters (rpm rph mr : Int) (d : ℚ) :
    (RateLimiter.init rpm rph mr d).requests_per_minute = rpm ∧
    (RateLimiter.init rpm rph mr d).requests_per_hour = rph ∧
    (RateLimiter.init rpm rph mr d).max_retries = mr ∧
    (RateLimiter.init rpm rph mr d).initial_retry_delay = d ∧
    (RateLimiter.init rpm rph mr d).minute_requests = [] ∧
    (RateLimiter.init rpm rph mr d).hour_requests = [] :=
  ⟨rfl, rfl, rfl, rfl, rfl, rfl⟩

/-- C3 counterexample: with `requests_per_minute = 0` (invalid per the claim)
and `initial_retry_delay = 0` (also invalid per the claim) the constructor
still succeeds and yields an ordinary limiter with empty windows — it does
not fail with a configuration error (the constructor has no failure path). -/
theorem init_zero_limits_succeeds :
    RateLimiter.init 0 1500 (-1) 0 =
      { requests_per_minute := 0, requests_per_hour := 1500, max_retries := -1,
        initial_retry_delay := 0, minute_requests := [], hour_requests := [] } :=
  rfl

/-! # Claim C4 -/

/-- C4 (code bug).  Failing execution: limiter configured with
`requests_per_minute = 1`, window holding one request recorded at `t = 100`;
`wait_if_needed` entered at `t = 100`.  The trace acquires the lock, sleeps
`60.1` seconds **while still holding the lock**, re-checks at `t = 161`,
records, and only then releases: in the source the `time.sleep` calls are
inside the `with self.lock:` block, so the claimed
"sleeping occurs outside the critical section" is violated. -/
theorem wait_if_needed_sleeps_under_lock :
    (wait_if_needed ⟨1, 1500, 5, 1, [100], [100]⟩ [100, 161] 161).map
      (fun p => sleepsWhileLocked p.1 false) = some true ∧
    (wait_if_needed ⟨1, 1500, 5, 1, [100], [100]⟩ [100, 161] 161).map
      (fun p => p.2.minute_requests) = some [161] ∧
    (wait_if_needed ⟨1, 1500, 5, 1, [100], [100]⟩ [100, 161] 161).map
      (fun p => p.2.hour_requests) = some [100, 161] := by
  refine ⟨by decide, by decide, by decide⟩

/-! # Claim C5 -/

theorem mem_of_not_mem_dropWhile {p : Int → Bool} {l : List Int} {x : Int}
    (hx : x ∈ l) (hnd : x ∉ l.dropWhile p) : p x = true := by
  have hsplit := List.takeWhile_append_dropWhile p l
  rw [← hsplit] at hx
  rcases List.mem_append.mp hx with h | h
  · exact List.mem_takeWhile_imp h
  · exact absurd h hnd

theorem cleanOld_minute_purged {t : Int} {rl : RateLimiter} {x : Int}
    (hx : x ∈ rl.minute_requests) (hnd : x ∉ (cleanOld t rl).minute_requests) :
    x < t - 60 := by
  have := mem_of_not_mem_dropWhile hx hnd
  simpa using this

theorem cleanOld_hour_purged {t : Int} {rl : RateLimiter} {x : Int}
    (hx : x ∈ rl.hour_requests) (hnd : x ∉ (cleanOld t rl).hour_requests) :
    x < t - 3600 := by
  have := mem_of_not_mem_dropWhile hx hnd
  simpa using this

/-- Exiting the admission loop: configuration is untouched, both cleaned
windows are strictly below their limits, each final window is a suffix of the
initial one, and every entry that left a window was strictly older than that
window's span at one of the loop's clock readings. -/
theorem waitLoop_ok :
    ∀ (times : List Int) (rl : RateLimiter) (evs : List RLEvent) (rl₁ : RateLimiter),
    waitLoop rl times = some (evs, rl₁) →
    rl₁.requests_per_minute = rl.requests_per_minute ∧
    rl₁.requests_per_hour = rl.requests_per_hour ∧
    ((rl₁.minute_requests.length : Int) < rl.requests_per_minute) ∧
    ((rl₁.hour_requests.length : Int) < rl.requests_per_hour) ∧
    rl₁.minute_requests <:+ rl.minute_requests ∧
    rl₁.hour_requests <:+ rl.hour_requests ∧
    (∀ x ∈ rl.minute_requests, x ∉ rl₁.minute_requests → ∃ t ∈ times, x < t - 60) ∧
    (∀ x ∈ rl.hour_requests, x ∉ rl₁.hour_requests → ∃ t ∈ times, x < t - 3600)
  | [], rl, evs, rl₁ => by
    intro h
    simp [waitLoop] at h
  | t :: ts, rl, evs, rl₁ => by
    intro h
    unfold waitLoop at h
    by_cases hcap : hasCapacity (cleanOld t rl)
    · rw [if_pos hcap] at h
      injection h with h
      injection h with h1 h2
      subst h2
      have hcap' := hcap
      simp only [hasCapacity, Bool.and_eq_true, decide_eq_true_eq] at hcap'
      refine ⟨rfl, rfl, hcap'.1, hcap'.2, List.dropWhile_suffix _, List.dropWhile_suffix _,
        ?_, ?_⟩
      · intro x hx hnd
        exact ⟨t, List.mem_cons_self t ts, cleanOld_minute_purged hx hnd⟩
      · intro x hx hnd
        exact ⟨t, List.mem_cons_self t ts, cleanOld_hour_purged hx hnd⟩
    · rw [if_neg hcap] at h
      dsimp only at h
      rcases hrec : waitLoop
          (if 0 < getWaitTime t (cleanOld t rl) then cleanOld t (cleanOld t rl)
           else cleanOld t rl) ts with _ | ⟨evs', rl₁'⟩ <;>
        rw [hrec] at h
      · cases h
      injection h with h
      injection h with h1 h2
      subst h2
      obtain ⟨hm, hh, hlm, hlh, hsm, hsh, hpm, hph⟩ := waitLoop_ok ts _ evs' rl₁' hrec
      have hcfg1 : (if 0 < getWaitTime t (cleanOld t rl) then cleanOld t (cleanOld t rl)
          else cleanOld t rl).requests_per_minute = rl.requests_per_minute := by
        split <;> rfl
      have hcfg2 : (if 0 < getWaitTime t (cleanOld t rl) then cleanOld t (cleanOld t rl)
          else cleanOld t rl).requests_per_hour = rl.requests_per_hour := by
        split <;> rfl
      have hsfxm : (if 0 < getWaitTime t (cleanOld t rl) then cleanOld t (cleanOld t rl)
          else cleanOld t rl).minute_requests <:+ rl.minute_requests := by
        split
        · exact (List.dropWhile_suffix _).trans (List.dropWhile_suffix _)
        · exact List.dropWhile_suffix _
      have hsfxh : (if 0 < getWaitTime t (cleanOld t rl) then cleanOld t (cleanOld t rl)
          else cleanOld t rl).hour_requests <:+ rl.hour_requests := by
        split
        · exact (List.dropWhile_suffix _).trans (List.dropWhile_suffix _)
        · exact List.dropWhile_suffix _
      have hstepm : ∀ x ∈ rl.minute_requests,
          x ∉ (if 0 < getWaitTime t (cleanOld t rl) then cleanOld t (cleanOld t rl)
            else cleanOld t rl).minute_requests → x < t - 60 := by
        intro x hx hnd
        split at hnd
        · by_cases hmid : x ∈ (cleanOld t rl).minute_requests
          · exact cleanOld_minute_purged hmid hnd
          · exact cleanOld_minute_purged hx hmid
        · exact cleanOld_minute_purged hx hnd
      have hsteph : ∀ x ∈ rl.hour_requests,
          x ∉ (if 0 < getWaitTime t (cleanOld t rl) then cleanOld t (cleanOld t rl)
            else cleanOld t rl).hour_requests → x < t - 3600 := by
        intro x hx hnd
        split at hnd
        · by_cases hmid : x ∈ (cleanOld t rl).hour_requests
          · exact cleanOld_hour_purged hmid hnd
          · exact cleanOld_hour_purged hx hmid
        · exact cleanOld_hour_purged hx hnd
      refine ⟨hm.trans hcfg1, hh.trans hcfg2, by rw [← hcfg1]; exact hlm,
        by rw [← hcfg2]; exact hlh, hsm.trans hsfxm, hsh.trans hsfxh, ?_, ?_⟩
      · intro x hx hnd
        by_cases hmid : x ∈ (if 0 < getWaitTime t (cleanOld t rl) then
            cleanOld t (cleanOld t rl) else cleanOld t rl).minute_requests
        · obtain ⟨t', ht', hlt⟩ := hpm x hmid hnd
          exact ⟨t', List.mem_cons_of_mem t ht', hlt⟩
        · exact ⟨t, List.mem_cons_self t ts, hstepm x hx hmid⟩
      · intro x hx hnd
        by_cases hmid : x ∈ (if 0 < getWaitTime t (cleanOld t rl) then
            cleanOld t (cleanOld t rl) else cleanOld t rl).hour_requests
        · obtain ⟨t', ht', hlt⟩ := hph x hmid hnd
          exact ⟨t', List.mem_cons_of_mem t ht', hlt⟩
        · exact ⟨t, List.mem_cons_self t ts, hsteph x hx hmid⟩

/-- C5 (confirmed).  Immediately after any admission (any successful
`wait_if_needed` with recording instant `tRec`): the count of recorded
timestamps within the trailing 60 seconds of `tRec` is at most
`requests_per_minute` and within the trailing 3600 seconds at most
`requests_per_hour`; the admission appended `tRec` to **both** windows in the
same locked step; and every entry that left a window did so only because a
purge found it older than that window's span.  (Since the source holds the
single lock for the whole check-and-record step, serialized executions cover
all concurrent interleavings.) -/
theorem admit_window_invariant (rl : RateLimiter) (times : List Int) (tRec : Int)
    (evs : List RLEvent) (rl' : RateLimiter)
    (h : wait_if_needed rl times tRec = some (evs, rl')) :
    ((rl'.minute_requests.filter (fun x => decide (tRec - 60 ≤ x))).length : Int) ≤
      rl.requests_per_minute ∧
    ((rl'.hour_requests.filter (fun x => decide (tRec - 3600 ≤ x))).length : Int) ≤
      rl.requests_per_hour ∧
    (∃ m, rl'.minute_requests = m ++ [tRec] ∧ m <:+ rl.minute_requests) ∧
    (∃ hw, rl'.hour_requests = hw ++ [tRec] ∧ hw <:+ rl.hour_requests) ∧
    (∀ x ∈ rl.minute_requests, x ∉ rl'.minute_requests → ∃ t ∈ times, x < t - 60) ∧
    (∀ x ∈ rl.hour_requests, x ∉ rl'.hour_requests → ∃ t ∈ times, x < t - 3600) := by
  unfold wait_if_needed at h
  rcases hrec : waitLoop rl times with _ | ⟨evs', rl₁⟩ <;> rw [hrec] at h
  · cases h
  obtain ⟨-, -, hlm, hlh, hsm, hsh, hpm, hph⟩ := waitLoop_ok times rl evs' rl₁ hrec
  injection h with h
  injection h with h1 h2
  subst h2
  refine ⟨?_, ?_, ⟨rl₁.minute_requests, rfl, hsm⟩, ⟨rl₁.hour_requests, rfl, hsh⟩, ?_, ?_⟩
  · dsimp only
    have hf := List.length_filter_le (fun x => decide (tRec - 60 ≤ x))
      (rl₁.minute_requests ++ [tRec])
    simp only [List.length_append, List.length_cons, List.length_nil] at hf
    omega
  · dsimp only
    have hf := List.length_filter_le (fun x => decide (tRec - 3600 ≤ x))
      (rl₁.hour_requests ++ [tRec])
    simp only [List.length_append, List.length_cons, List.length_nil] at hf
    omega
  · intro x hx hnd
    refine hpm x hx (fun hmem => hnd ?_)
    simp [List.mem_append, hmem]
  · intro x hx hnd
    refine hph x hx (fun hmem => hnd ?_)
    simp [List.mem_append, hmem]

/-- C5 witness: a fresh limiter (30 req/min) admitting one request at
`t = 100`; the hypothesis is discharged by evaluation. -/
theorem admit_window_invariant_witness :
    wait_if_needed (RateLimiter.init 30 1500 5 1) [100] 100 =
      some ([RLEvent.acquire, RLEvent.record 100, RLEvent.release],
        { requests_per_minute := 30, requests_per_hour := 1500, max_retries := 5,
          initial_retry_delay := 1, minute_requests := [100], hour_requests := [100] }) ∧
    ((([100] : List Int).filter (fun x => decide ((100 : Int) - 60 ≤ x))).length : Int) ≤ 30 := by
  have h : wait_if_needed (RateLimiter.init 30 1500 5 1) [100] 100 =
      some ([RLEvent.acquire, RLEvent.record 100, RLEvent.release],
        { requests_per_minute := 30, requests_per_hour := 1500, max_retries := 5,
          initial_retry_delay := 1, minute_requests := [100], hour_requests := [100] }) := by
    rfl
  exact ⟨h, (admit_window_invariant _ _ _ _ _ h).1⟩

/-! # Claims C6, C7, C9: the retry loop -/

theorem retryGo_attempts_le (op : Nat → Except String α) :
    ∀ (r a : Nat) (d : ℚ), (retryGo op a d r).attempts ≤ r + 1
  | 0, a, d => by cases hop : op a <;> simp [retryGo, hop]
  | r + 1, a, d => by
    cases hop : op a with
    | ok v => simp [retryGo, hop]
    | error e =>
      by_cases hrl : isRateLimit e = true
      · have ih := retryGo_attempts_le op r (a + 1) (min (d * 2) 60)
        simp only [retryGo, hop]
        rw [if_pos hrl]
        dsimp only
        omega
      · simp only [retryGo, hop]
        rw [if_neg hrl]
        dsimp only
        omega

theorem retryGo_always_error (op : Nat → Except String α) (e : String)
    (hall : ∀ n, op n = .error e) (hrl : isRateLimit e = true) :
    ∀ (r a : Nat) (d : ℚ),
      (retryGo op a d r).result = .error e ∧ (retryGo op a d r).attempts = r + 1
  | 0, a, d => by simp [retryGo, hall a]
  | r + 1, a, d => by
    have ih := retryGo_always_error op e hall hrl r (a + 1) (min (d * 2) 60)
    simp only [retryGo, hall a]
    rw [if_pos hrl]
    dsimp only
    exact ⟨ih.1, by omega⟩

theorem retryGo_sleeps_props (op : Nat → Except String α) :
    ∀ (r a : Nat) (d : ℚ), 0 ≤ d → d ≤ 60 →
      (∀ x ∈ (retryGo op a d r).sleeps, x ≤ 60) ∧
      ((retryGo op a d r).sleeps).Chain' (· ≤ ·) ∧
      ((retryGo op a d r).sleeps).Chain' (fun x y => y = min (x * 2) 60) ∧
      (∀ x ∈ ((retryGo op a d r).sleeps).head?, x = d)
  | 0, a, d => by
    intro h0 h60
    cases hop : op a <;> simp [retryGo, hop]
  | r + 1, a, d => by
    intro h0 h60
    cases hop : op a with
    | ok v => simp [retryGo, hop]
    | error e =>
      by_cases hrl : isRateLimit e = true
      · have hd0 : (0:ℚ) ≤ min (d * 2) 60 := le_min (by linarith) (by norm_num)
        have hd60 : min (d * 2) 60 ≤ 60 := min_le_right _ _
        have ih := retryGo_sleeps_props op r (a + 1) (min (d * 2) 60) hd0 hd60
        simp only [retryGo, hop]
        rw [if_pos hrl]
        dsimp only
        refine ⟨?_, ?_, ?_, ?_⟩
        · intro x hx
          rcases List.mem_cons.mp hx with hx | hx
          · rw [hx]; exact h60
          · exact ih.1 x hx
        · refine List.chain'_cons'.mpr ⟨?_, ih.2.1⟩
          intro y hy
          rw [ih.2.2.2 y hy]
          exact le_min (by linarith) h60
        · refine List.chain'_cons'.mpr ⟨?_, ih.2.2.1⟩
          intro y hy
          exact ih.2.2.2 y hy
        · intro x hx
          simp only [List.head?_cons, Option.mem_def, Option.some.injEq] at hx
          exact hx.symm
      · simp only [retryGo, hop]
        rw [if_neg hrl]
        simp

/-- C6 (confirmed).  `execute_with_retry` makes at most `max_retries + 1`
attempts for any operation; with `max_retries = 2` and an operation that
always raises a rate-limit-classified error it makes exactly 3 attempts and
propagates the error; with `max_retries = 0` it makes exactly one attempt and
any failure propagates immediately. -/
theorem execute_with_retry_attempts (max_retries : Nat) (d : ℚ)
    (op opF : Nat → Except String α) (e : String)
    (hall : ∀ n, opF n = .error e) (hrl : isRateLimit e = true) :
    (execute_with_retry max_retries d op).attempts ≤ max_retries + 1 ∧
    (execute_with_retry 2 d opF).attempts = 3 ∧
    (execute_with_retry 2 d opF).result = .error e ∧
    (execute_with_retry 0 d op).attempts = 1 ∧
    (∀ e', op 0 = .error e' → (execute_with_retry 0 d op).result = .error e') := by
  refine ⟨retryGo_attempts_le op max_retries 0 d,
    (retryGo_always_error opF e hall hrl 2 0 d).2,
    (retryGo_always_error opF e hall hrl 2 0 d).1, ?_, ?_⟩
  · unfold execute_with_retry
    cases hop : op 0 <;> simp [retryGo, hop]
  · intro e' hop
    unfold execute_with_retry
    simp [retryGo, hop]

/-- C6 witness: the always-429 operation at `max_retries = 2` makes exactly
three attempts. -/
theorem execute_with_retry_attempts_witness :
    (∀ n : Nat, (fun _ : Nat => (Except.error "429" : Except String Nat)) n =
      Except.error "429") ∧
    isRateLimit "429" = true ∧
    (execute_with_retry 2 1 (fun _ : Nat => (Except.error "429" : Except String Nat))).attempts
      = 3 :=
  ⟨fun _ => rfl, by decide,
    (execute_with_retry_attempts 2 1 (fun _ => Except.error "429")
      (fun _ => Except.error "429") "429" (fun _ => rfl) (by decide)).2.1⟩

/-- C7 (confirmed).  An error not classified as a rate limit propagates
unchanged on the very first attempt, for every `max_retries`: one attempt, no
backoff sleeps, original message preserved. -/
theorem nonretryable_propagates (max_retries : Nat) (d : ℚ)
    (op : Nat → Except String α) (e : String)
    (h0 : op 0 = .error e) (hnr : isRateLimit e = false) :
    (execute_with_retry max_retries d op).result = .error e ∧
    (execute_with_retry max_retries d op).attempts = 1 ∧
    (execute_with_retry max_retries d op).sleeps = [] := by
  unfold execute_with_retry
  cases max_retries with
  | zero => simp [retryGo, h0]
  | succ r => simp [retryGo, h0, hnr]

/-- C7 witness: a `"boom"` failure with retries available is still propagated
after exactly one attempt. -/
theorem nonretryable_propagates_witness :
    ((fun _ : Nat => (Except.error "boom" : Except String Nat)) 0 = Except.error "boom") ∧
    isRateLimit "boom" = false ∧
    (execute_with_retry 5 1 (fun _ : Nat => (Except.error "boom" : Except String Nat))).attempts
      = 1 :=
  ⟨rfl, by decide,
    (nonretryable_propagates 5 1 (fun _ => Except.error "boom") "boom" rfl (by decide)).2.1⟩

/-- C9 (corrected).  **Provided `0 ≤ initial_retry_delay ≤ 60`** (which holds
for the default `1.0`), the backoff delays slept within one
`execute_with_retry` call are non-decreasing, all capped at 60 seconds, and
each successive delay is the double of its predecessor capped at 60; with
`initial_retry_delay = 1` the delays are `1, 2, 4, 8, 16, 32, 60`.  The
unrestricted claim is false: an initial delay above 60 is slept uncapped and
the next delay is *smaller* (see the counterexample). -/
theorem backoff_monotone_capped (max_retries : Nat) (d : ℚ)
    (op : Nat → Except String α) (h0 : 0 ≤ d) (h60 : d ≤ 60) :
    ((execute_with_retry max_retries d op).sleeps).Chain' (· ≤ ·) ∧
    (∀ x ∈ (execute_with_retry max_retries d op).sleeps, x ≤ 60) ∧
    ((execute_with_retry max_retries d op).sleeps).Chain' (fun x y => y = min (x * 2) 60) ∧
    (execute_with_retry 7 1 (fun _ => (Except.error "429" : Except String Nat))).sleeps =
      [1, 2, 4, 8, 16, 32, 60] := by
  have hp := retryGo_sleeps_props op max_retries 0 d h0 h60
  have h429 : isRateLimit "429" = true := by decide
  refine ⟨hp.2.1, hp.1, hp.2.2.1, ?_⟩
  norm_num [execute_with_retry, retryGo, h429, min_def]

/-- C9 witness: the default initial delay `1.0` satisfies the bounds and the
slept delays are non-decreasing. -/
theorem backoff_monotone_capped_witness :
    (0:ℚ) ≤ 1 ∧ (1:ℚ) ≤ 60 ∧
    ((execute_with_retry 3 1 (fun _ => (Except.error "429" : Except String Nat))).sleeps).Chain'
      (· ≤ ·) :=
  ⟨by norm_num, by norm_num,
    (backoff_monotone_capped 3 1 (fun _ => Except.error "429") (by norm_num) (by norm_num)).1⟩

/-- C9 counterexample: with `initial_retry_delay = 100` the first slept delay
is `100` (exceeding the claimed 60-second cap) and the second is `60`, so the
sequence of slept delays strictly *decreases*. -/
theorem backoff_exceeds_cap :
    (execute_with_retry 2 100 (fun _ => (Except.error "429" : Except String Nat))).sleeps =
      [100, 60] ∧ ¬ ((100:ℚ) ≤ 60) := by
  have h429 : isRateLimit "429" = true := by decide
  constructor
  · norm_num [execute_with_retry, retryGo, h429, min_def]
  · norm_num

/-! # Claim C8: score_and_sort_complaints -/

theorem scoreLE_trans : ∀ a b c : Scored, scoreLE a b = true → scoreLE b c = true →
    scoreLE a c = true := by
  intro a b c hab hbc
  simp only [scoreLE, decide_eq_true_eq] at *
  exact le_trans hbc hab

theorem scoreLE_total : ∀ a b : Scored, scoreLE a b || scoreLE b a := by
  intro a b
  simp only [scoreLE]
  rcases le_total a.priority_score b.priority_score with h | h <;> simp [h]

theorem mapScore_single (now : Int) :
    ∀ (l : List Complaint) (l' : List Scored) (b : Complaint) (sB : Scored),
      mapScore now l = .ok l' → [b].Sublist l → score_complaint now b = .ok sB →
      [sB].Sublist l'
  | [], l', b, sB => by
    intro _ hsub _
    exact absurd hsub (by simp)
  | c :: cs, l', b, sB => by
    intro h hsub hsB
    unfold mapScore at h
    cases hc : score_complaint now c with
    | error e => rw [hc] at h; cases h
    | ok s =>
      rw [hc] at h
      cases hrest : mapScore now cs with
      | error e => rw [hrest] at h; cases h
      | ok ss =>
        rw [hrest] at h
        injection h with h
        subst h
        cases hsub with
        | cons _ h' =>
          exact (mapScore_single now cs ss b sB hrest h' hsB).cons s
        | cons₂ _ h' =>
          rw [hsB] at hc
          injection hc with hc
          subst hc
          exact (List.nil_sublist ss).cons₂ sB

theorem mapScore_pair (now : Int) :
    ∀ (l : List Complaint) (l' : List Scored) (a b : Complaint) (sA sB : Scored),
      mapScore now l = .ok l' → [a, b].Sublist l → score_complaint now a = .ok sA →
      score_complaint now b = .ok sB → [sA, sB].Sublist l'
  | [], l', a, b, sA, sB => by
    intro _ hsub _ _
    exact absurd hsub (by simp)
  | c :: cs, l', a, b, sA, sB => by
    intro h hsub hsA hsB
    unfold mapScore at h
    cases hc : score_complaint now c with
    | error e => rw [hc] at h; cases h
    | ok s =>
      rw [hc] at h
      cases hrest : mapScore now cs with
      | error e => rw [hrest] at h; cases h
      | ok ss =>
        rw [hrest] at h
        injection h with h
        subst h
        cases hsub with
        | cons _ h' =>
          exact (mapScore_pair now cs ss a b sA sB hrest h' hsA hsB).cons s
        | cons₂ _ h' =>
          rw [hsA] at hc
          injection hc with hc
          subst hc
          exact (mapScore_single now cs ss b sB hrest h' hsB).cons₂ sA

/-- C8 (confirmed).  A successful `score_and_sort_complaints` scores every
element independently (the output is a permutation of the element-wise
scores), sorts descending by total score, and the sort is stable: two
complaints appearing in input order `[A, B]` whose computed scores are equal
appear in the output with `A`'s score record still before `B`'s. -/
theorem score_and_sort_stable (now : Int) (l : List Complaint) (out : List Scored)
    (h : score_and_sort_complaints now l = .ok out) :
    (∃ scored, mapScore now l = .ok scored ∧ out.Perm scored) ∧
    out.Pairwise (fun a b => b.priority_score ≤ a.priority_score) ∧
    (∀ A B sA sB, [A, B].Sublist l → score_complaint now A = .ok sA →
      score_complaint now B = .ok sB → sA.priority_score = sB.priority_score →
      [sA, sB].Sublist out) := by
  unfold score_and_sort_complaints at h
  cases hms : mapScore now l with
  | error e => rw [hms] at h; cases h
  | ok scored =>
    rw [hms] at h
    injection h with h
    subst h
    refine ⟨⟨scored, rfl, List.mergeSort_perm scored scoreLE⟩, ?_, ?_⟩
    · have hs := List.sorted_mergeSort scoreLE_trans scoreLE_total scored
      refine hs.imp ?_
      intro a b hab
      simpa [scoreLE, decide_eq_true_eq] using hab
    · intro A B sA sB hsub hA hB heq
      have hpair := mapScore_pair now l scored A B sA sB hms hsub hA hB
      have hpw : List.Pairwise (fun a b => scoreLE a b = true) [sA, sB] := by
        simp [scoreLE, heq]
      exact List.sublist_mergeSort scoreLE_trans scoreLE_total hpw hpair

/-- The two-element stable-sort evaluation used by the concrete instances. -/
theorem mergeSort_pair_eq (s₁ s₂ : Scored) (hle : scoreLE s₁ s₂ = true) :
    [s₁, s₂].mergeSort scoreLE = [s₁, s₂] := by
  have hpw : List.Pairwise (fun a b => scoreLE a b = true) [s₁, s₂] := by
    simp [hle]
  have hsub := List.sublist_mergeSort scoreLE_trans scoreLE_total hpw
    (List.Sublist.refl [s₁, s₂])
  exact (hsub.eq_of_length (List.length_mergeSort [s₁, s₂]).symm).symm

/-- C8 witness: two complaints with equal scores (45) that differ only in the
capitalization of their fields stay in input order after sorting. -/
theorem score_and_sort_stable_witness :
    score_and_sort_complaints 0
      [⟨some (.str "low"), some (.str "pending"), Option.none, Option.none⟩,
       ⟨some (.str "LOW"), some (.str "Pending"), Option.none, Option.none⟩] =
      .ok [⟨⟨some (.str "low"), some (.str "pending"), Option.none, Option.none⟩,
            45, ⟨25, 20, 0, 0, 45⟩⟩,
           ⟨⟨some (.str "LOW"), some (.str "Pending"), Option.none, Option.none⟩,
            45, ⟨25, 20, 0, 0, 45⟩⟩] ∧
    [(⟨⟨some (.str "low"), some (.str "pending"), Option.none, Option.none⟩,
       45, ⟨25, 20, 0, 0, 45⟩⟩ : Scored),
     ⟨⟨some (.str "LOW"), some (.str "Pending"), Option.none, Option.none⟩,
      45, ⟨25, 20, 0, 0, 45⟩⟩].Sublist
      [⟨⟨some (.str "low"), some (.str "pending"), Option.none, Option.none⟩,
        45, ⟨25, 20, 0, 0, 45⟩⟩,
       ⟨⟨some (.str "LOW"), some (.str "Pending"), Option.none, Option.none⟩,
        45, ⟨25, 20, 0, 0, 45⟩⟩] := by
  have hA : score_complaint 0
      ⟨some (.str "low"), some (.str "pending"), Option.none, Option.none⟩ =
      .ok ⟨⟨some (.str "low"), some (.str "pending"), Option.none, Option.none⟩,
           45, ⟨25, 20, 0, 0, 45⟩⟩ := by
    have hpop : calculate_population_score
        ((⟨some (.str "low"), some (.str "pending"), Option.none,
          Option.none⟩ : Complaint).affected_people.getD (PyVal.int 0)) = .ok 0 := by
      show calculate_population_score (PyVal.int 0) = .ok 0
      exact pop_score_int_nonpos 0 le_rfl
    rw [score_complaint_eq 0 _ "low" "pending" 0 (by decide) (by decide) hpop]
    have hage : calculate_age_score 0
        ((⟨some (.str "low"), some (.str "pending"), Option.none,
          Option.none⟩ : Complaint).created_at.getD (PyVal.str "")) = 0 := by decide
    have hpw : (PRIORITY_WEIGHTS.lookup "low").getD 0 = 25 := by decide
    have hsw : (STATUS_WEIGHTS.lookup "pending").getD 0 = 20 := by decide
    rw [hage, hpw, hsw]
    norm_num [Scored.mk.injEq, Breakdown.mk.injEq]
  have hB : score_complaint 0
      ⟨some (.str "LOW"), some (.str "Pending"), Option.none, Option.none⟩ =
      .ok ⟨⟨some (.str "LOW"), some (.str "Pending"), Option.none, Option.none⟩,
           45, ⟨25, 20, 0, 0, 45⟩⟩ := by
    have hpop : calculate_population_score
        ((⟨some (.str "LOW"), some (.str "Pending"), Option.none,
          Option.none⟩ : Complaint).affected_people.getD (PyVal.int 0)) = .ok 0 := by
      show calculate_population_score (PyVal.int 0) = .ok 0
      exact pop_score_int_nonpos 0 le_rfl
    rw [score_complaint_eq 0 _ "low" "pending" 0 (by decide) (by decide) hpop]
    have hage : calculate_age_score 0
        ((⟨some (.str "LOW"), some (.str "Pending"), Option.none,
          Option.none⟩ : Complaint).created_at.getD (PyVal.str "")) = 0 := by decide
    have hpw : (PRIORITY_WEIGHTS.lookup "low").getD 0 = 25 := by decide
    have hsw : (STATUS_WEIGHTS.lookup "pending").getD 0 = 20 := by decide
    rw [hage, hpw, hsw]
    norm_num [Scored.mk.injEq, Breakdown.mk.injEq]
  have hms : mapScore 0
      [⟨some (.str "low"), some (.str "pending"), Option.none, Option.none⟩,
       ⟨some (.str "LOW"), some (.str "Pending"), Option.none, Option.none⟩] =
      .ok [⟨⟨some (.str "low"), some (.str "pending"), Option.none, Option.none⟩,
            45, ⟨25, 20, 0, 0, 45⟩⟩,
           ⟨⟨some (.str "LOW"), some (.str "Pending"), Option.none, Option.none⟩,
            45, ⟨25, 20, 0, 0, 45⟩⟩] := by
    simp only [mapScore, hA, hB]
  have hsorted : score_and_sort_complaints 0
      [⟨some (.str "low"), some (.str "pending"), Option.none, Option.none⟩,
       ⟨some (.str "LOW"), some (.str "Pending"), Option.none, Option.none⟩] =
      .ok [⟨⟨some (.str "low"), some (.str "pending"), Option.none, Option.none⟩,
            45, ⟨25, 20, 0, 0, 45⟩⟩,
           ⟨⟨some (.str "LOW"), some (.str "Pending"), Option.none, Option.none⟩,
            45, ⟨25, 20, 0, 0, 45⟩⟩] := by
    simp only [score_and_sort_complaints, hms]
    rw [mergeSort_pair_eq _ _ (by simp [scoreLE])]
  refine ⟨hsorted, ?_⟩
  exact (score_and_sort_stable 0 _ _ hsorted).2.2 _ _ _ _
    (List.Sublist.refl _) hA hB rfl

/-! # Claim C10: concrete scenario -/

/-- C10 (confirmed).  With `now` = 2026-01-02T10:00:00+00:00 (seconds
`1767348000`): the urgent/escalated complaint affecting 500 people created one
whole day earlier scores `100 + 50 + 5 + 40 = 195`, category `HIGH`; the
low/pending complaint affecting 10 people created at `now` scores
`25 + 20 + 0 + 20 = 65`, category `LOW`; sorting the pair keeps the first
before the second; and a complaint created 30 days before `now` has an age
sub-score of exactly 50 (capped). -/
theorem concrete_scenario :
    score_complaint 1767348000
        ⟨some (.str "urgent"), some (.str "escalated"),
         some (.str "2026-01-01T10:00:00Z"), some (.int 500)⟩ =
      .ok ⟨⟨some (.str "urgent"), some (.str "escalated"),
            some (.str "2026-01-01T10:00:00Z"), some (.int 500)⟩,
           195, ⟨100, 50, 5, 40, 195⟩⟩ ∧
    get_priority_category 195 = "HIGH" ∧
    score_complaint 1767348000
        ⟨some (.str "low"), some (.str "pending"),
         some (.str "2026-01-02T10:00:00Z"), some (.int 10)⟩ =
      .ok ⟨⟨some (.str "low"), some (.str "pending"),
            some (.str "2026-01-02T10:00:00Z"), some (.int 10)⟩,
           65, ⟨25, 20, 0, 20, 65⟩⟩ ∧
    get_priority_category 65 = "LOW" ∧
    score_and_sort_complaints 1767348000
        [⟨some (.str "urgent"), some (.str "escalated"),
          some (.str "2026-01-01T10:00:00Z"), some (.int 500)⟩,
         ⟨some (.str "low"), some (.str "pending"),
          some (.str "2026-01-02T10:00:00Z"), some (.int 10)⟩] =
      .ok [⟨⟨some (.str "urgent"), some (.str "escalated"),
             some (.str "2026-01-01T10:00:00Z"), some (.int 500)⟩,
            195, ⟨100, 50, 5, 40, 195⟩⟩,
           ⟨⟨some (.str "low"), some (.str "pending"),
             some (.str "2026-01-02T10:00:00Z"), some (.int 10)⟩,
            65, ⟨25, 20, 0, 20, 65⟩⟩] ∧
    calculate_age_score 1767348000 (PyVal.str "2025-12-03T10:00:00Z") = 50 := by
  have hHi : score_complaint 1767348000
      ⟨some (.str "urgent"), some (.str "escalated"),
       some (.str "2026-01-01T10:00:00Z"), some (.int 500)⟩ =
      .ok ⟨⟨some (.str "urgent"), some (.str "escalated"),
            some (.str "2026-01-01T10:00:00Z"), some (.int 500)⟩,
           195, ⟨100, 50, 5, 40, 195⟩⟩ := by
    have hpop : calculate_population_score
        ((⟨some (.str "urgent"), some (.str "escalated"),
          some (.str "2026-01-01T10:00:00Z"),
          some (.int 500)⟩ : Complaint).affected_people.getD (PyVal.int 0)) = .ok 40 := by
      show calculate_population_score (PyVal.int 500) = .ok 40
      rw [pop_score_int_pos 500 (by norm_num)]
      norm_num
    rw [score_complaint_eq 1767348000 _ "urgent" "escalated" 40 (by decide) (by decide) hpop]
    have hage : calculate_age_score 1767348000
        ((⟨some (.str "urgent"), some (.str "escalated"),
          some (.str "2026-01-01T10:00:00Z"),
          some (.int 500)⟩ : Complaint).created_at.getD (PyVal.str "")) = 5 := by decide
    have hpw : (PRIORITY_WEIGHTS.lookup "urgent").getD 0 = 100 := by decide
    have hsw : (STATUS_WEIGHTS.lookup "escalated").getD 0 = 50 := by decide
    rw [hage, hpw, hsw]
    norm_num [Scored.mk.injEq, Breakdown.mk.injEq]
  have hLo : score_complaint 1767348000
      ⟨some (.str "low"), some (.str "pending"),
       some (.str "2026-01-02T10:00:00Z"), some (.int 10)⟩ =
      .ok ⟨⟨some (.str "low"), some (.str "pending"),
            some (.str "2026-01-02T10:00:00Z"), some (.int 10)⟩,
           65, ⟨25, 20, 0, 20, 65⟩⟩ := by
    have hpop : calculate_population_score
        ((⟨some (.str "low"), some (.str "pending"),
          some (.str "2026-01-02T10:00:00Z"),
          some (.int 10)⟩ : Complaint).affected_people.getD (PyVal.int 0)) = .ok 20 := by
      show calculate_population_score (PyVal.int 10) = .ok 20
      rw [pop_score_int_pos 10 (by norm_num)]
      norm_num
    rw [score_complaint_eq 1767348000 _ "low" "pending" 20 (by decide) (by decide) hpop]
    have hage : calculate_age_score 1767348000
        ((⟨some (.str "low"), some (.str "pending"),
          some (.str "2026-01-02T10:00:00Z"),
          some (.int 10)⟩ : Complaint).created_at.getD (PyVal.str "")) = 0 := by decide
    have hpw : (PRIORITY_WEIGHTS.lookup "low").getD 0 = 25 := by decide
    have hsw : (STATUS_WEIGHTS.lookup "pending").getD 0 = 20 := by decide
    rw [hage, hpw, hsw]
    norm_num [Scored.mk.injEq, Breakdown.mk.injEq]
  have hms : mapScore 1767348000
      [⟨some (.str "urgent"), some (.str "escalated"),
        some (.str "2026-01-01T10:00:00Z"), some (.int 500)⟩,
       ⟨some (.str "low"), some (.str "pending"),
        some (.str "2026-01-02T10:00:00Z"), some (.int 10)⟩] =
      .ok [⟨⟨some (.str "urgent"), some (.str "escalated"),
             some (.str "2026-01-01T10:00:00Z"), some (.int 500)⟩,
            195, ⟨100, 50, 5, 40, 195⟩⟩,
           ⟨⟨some (.str "low"), some (.str "pending"),
             some (.str "2026-01-02T10:00:00Z"), some (.int 10)⟩,
            65, ⟨25, 20, 0, 20, 65⟩⟩] := by
    simp only [mapScore, hHi, hLo]
  refine ⟨hHi, by norm_num [get_priority_category], hLo, by norm_num [get_priority_category],
    ?_, by decide⟩
  simp only [score_and_sort_complaints, hms]
  rw [mergeSort_pair_eq _ _ (by norm_num [scoreLE])]

end Samadhan
